import Mathlib

/-
Shallow embedding of the account-validation layer of the hello_token program
(src/solana/programs/02_hello_token/src/context.rs) from the
wormhole-scaffolding repository.

The program is a set of Anchor accounts structs whose attribute constraints
are the entire behaviour under study: program-derived-address (PDA) checks
(`seeds = [...], bump`), address-equality checks (`address = ... @ Error`),
`has_one` ownership checks and raw `constraint = ...` expressions.  Each
accounts struct is embedded as a checker function that evaluates the
constraints in the order the fields are declared in the source and returns
either `Except.ok ()` or the first raised error.  Solana PDA derivation
(`Pubkey::find_program_address`) is a collision-resistant hash of the seed
byte strings and the deriving program id; it is embedded as a free
constructor `Pubkey.pda`, which makes determinism and injectivity of the
derivation explicit.  The host (Solana runtime) executes a transaction
atomically, so a checker returning an error models a call that leaves all
state unchanged.
-/

namespace HelloToken

/-- Solana public key.  `raw n` stands for an arbitrary 32-byte key (wallets,
mints, external program ids); `pda seeds program` is the program-derived
address computed by `Pubkey::find_program_address(seeds, program)`, whose
determinism and collision resistance are modelled by `pda` being a free
constructor. -/
inductive Pubkey where
  | raw : Nat → Pubkey
  | pda : List (List Nat) → Pubkey → Pubkey
deriving DecidableEq

/-- Serialization of a public key to its seed bytes, used when a key appears
as a PDA seed (`foo.key().as_ref()` in the source).  Any fixed computable
serialization works for the claims; none of them needs its injectivity. -/
def keyBytes : Pubkey → List Nat
  | .raw n => [0, n]
  | .pda seeds program => 1 :: (seeds.flatten ++ keyBytes program)

/-- Little-endian byte encoding of width `w` (`to_le_bytes` in the source,
with `w = 2` for `u16` and `w = 8` for `u64`). -/
def leBytes (w n : Nat) : List Nat :=
  (List.range w).map fun i => n / 256 ^ i % 256

/-- Big-endian byte encoding of width `w` (`to_be_bytes` in the source). -/
def beBytes (w n : Nat) : List Nat :=
  (leBytes w n).reverse

theorem digits_determine {w : Nat} : ∀ {n m : Nat}, n < 256 ^ w → m < 256 ^ w →
    (∀ i, i < w → n / 256 ^ i % 256 = m / 256 ^ i % 256) → n = m := by
  induction w with
  | zero =>
    intro n m hn hm _
    simp only [pow_zero, Nat.lt_one_iff] at hn hm
    rw [hn, hm]
  | succ w ih =>
    intro n m hn hm h
    have h0 : n % 256 = m % 256 := by
      have := h 0 (Nat.succ_pos w)
      simpa using this
    have hn2 : n / 256 < 256 ^ w := by
      apply Nat.div_lt_of_lt_mul
      calc n < 256 ^ (w + 1) := hn
        _ = 256 * 256 ^ w := by ring
    have hm2 : m / 256 < 256 ^ w := by
      apply Nat.div_lt_of_lt_mul
      calc m < 256 ^ (w + 1) := hm
        _ = 256 * 256 ^ w := by ring
    have hrec : n / 256 = m / 256 := by
      apply ih hn2 hm2
      intro i hi
      have hstep := h (i + 1) (Nat.succ_lt_succ hi)
      have e1 : ∀ k : Nat, k / 256 / 256 ^ i = k / 256 ^ (i + 1) := by
        intro k
        rw [Nat.div_div_eq_div_mul, pow_succ, mul_comm]
      rw [e1 n, e1 m]
      exact hstep
    calc n = 256 * (n / 256) + n % 256 := (Nat.div_add_mod n 256).symm
      _ = 256 * (m / 256) + m % 256 := by rw [h0, hrec]
      _ = m := Nat.div_add_mod m 256

theorem leBytes_inj {w n m : Nat} (hn : n < 256 ^ w) (hm : m < 256 ^ w)
    (h : leBytes w n = leBytes w m) : n = m := by
  apply digits_determine hn hm
  intro i hi
  unfold leBytes at h
  have hq := congrArg (fun l => l[i]?) h
  simp only [List.getElem?_map, List.getElem?_range, hi, if_pos] at hq
  simpa using hq

/-! Seed byte-string constants.  `SEED_PREFIX_BRIDGED` and the `b"tmp"` seed
are literal in context.rs; the record tags for the config and registry
records and the posted-VAA seed live in files outside src/ and are taken
from the spec table of derivation seeds. -/

/-- Bytes of `b"bridged"` (context.rs line 17, `SEED_PREFIX_BRIDGED`). -/
def SEED_PREFIX_BRIDGED : List Nat := [98, 114, 105, 100, 103, 101, 100]

/-- Bytes of `b"tmp"` (context.rs lines 237 and 404). -/
def SEED_TMP : List Nat := [116, 109, 112]

/-- Modelled from the spec: bytes of the `sender_config` record tag
(`SenderConfig` seed, declared in state.rs which is not in src/). -/
def SEED_SENDER_CONFIG : List Nat :=
  [115, 101, 110, 100, 101, 114, 95, 99, 111, 110, 102, 105, 103]

/-- Modelled from the spec: bytes of the `redeemer_config` record tag
(`RedeemerConfig` seed, declared in state.rs which is not in src/). -/
def SEED_REDEEMER_CONFIG : List Nat :=
  [114, 101, 100, 101, 101, 109, 101, 114, 95, 99, 111, 110, 102, 105, 103]

/-- Modelled from the spec: bytes of the `foreign_contract` record tag
(`ForeignContract` seed, declared in state.rs which is not in src/). -/
def SEED_FOREIGN_CONTRACT : List Nat :=
  [102, 111, 114, 101, 105, 103, 110, 95, 99, 111, 110, 116, 114, 97, 99, 116]

/-- Bytes of `b"PostedVAA"` (`wormhole::SEED_PREFIX_POSTED_VAA`, from the
wormhole SDK consumed by context.rs line 427). -/
def SEED_POSTED_VAA : List Nat := [80, 111, 115, 116, 101, 100, 86, 65, 65]

/-- Wormhole chain identifier of Solana (`wormhole::CHAIN_ID_SOLANA`), the
local chain of this program. -/
def CHAIN_ID_SOLANA : Nat := 1

/-! Distinguished well-known addresses.  Each stands for a fixed 32-byte
constant of the Solana ecosystem; distinct `raw` codes model their real
distinctness. -/

/-- The clock sysvar address (`clock::id()`). -/
def CLOCK_SYSVAR_ID : Pubkey := .raw 1

/-- The rent sysvar address (`rent::id()`). -/
def RENT_SYSVAR_ID : Pubkey := .raw 2

/-- The SPL token program id. -/
def TOKEN_PROGRAM_ID : Pubkey := .raw 3

/-- The SPL associated-token program id. -/
def ASSOCIATED_TOKEN_PROGRAM_ID : Pubkey := .raw 4

/-- The Wormhole core bridge program id (`wormhole::program::Wormhole`). -/
def WORMHOLE_PROGRAM_ID : Pubkey := .raw 5

/-- The Wormhole token bridge program id
(`token_bridge::program::TokenBridge`). -/
def TOKEN_BRIDGE_PROGRAM_ID : Pubkey := .raw 6

/-- Modelled from the spec: the canonical associated token account of a
wallet for a mint (`anchor_spl::associated_token::get_associated_token_address`,
library code outside src/): the PDA of the associated-token program on the
wallet, the token program and the mint. -/
def associatedTokenAddress (wallet mint : Pubkey) : Pubkey :=
  .pda [keyBytes wallet, keyBytes TOKEN_PROGRAM_ID, keyBytes mint]
    ASSOCIATED_TOKEN_PROGRAM_ID

/-- The custom error enum of the program (`HelloTokenError`, declared in
error.rs which is not in src/; every variant below is raised by name in
context.rs or named by the spec error taxonomy). -/
inductive HelloTokenError where
  | OwnerOnly
  | InvalidForeignContract
  | InvalidTokenBridgeConfig
  | InvalidTokenBridgeAuthoritySigner
  | InvalidTokenBridgeCustodySigner
  | InvalidWormholeBridge
  | InvalidTokenBridgeEmitter
  | InvalidTokenBridgeSequence
  | InvalidWormholeFeeCollector
  | InvalidSysvar
  | InvalidPayerAta
  | InvalidTransferToAddress
  | InvalidTransferToChain
  | InvalidTransferTokenChain
  | InvalidTokenBridgeForeignEndpoint
deriving DecidableEq

/-- Outcome error of a call: either a named program error, or one of the
generic Anchor framework errors raised by constraints that carry no custom
custom `@ Error` marker. -/
inductive Err where
  | hello : HelloTokenError → Err
  | constraintSeeds
  | constraintAddress
  | constraintAssociated
  | invalidProgramId
deriving DecidableEq

/-! Account data records.  `SenderConfig`, `RedeemerConfig` and
`ForeignContract` are declared in state.rs (not in src/); their fields below
are exactly the ones context.rs reads (`config.token_bridge.config`,
`config.owner`, `foreign_contract.token_bridge_foreign_endpoint`, ...) plus
the bump byte named by the spec data model. -/

/-- The bundle of token-bridge and wormhole capability addresses snapshotted
into `SenderConfig` at initialization (fields as read by
`SendNativeTokensWithPayload` in context.rs lines 252 to 321). -/
structure OutboundTokenBridgeAddresses where
  config : Pubkey
  authority_signer : Pubkey
  custody_signer : Pubkey
  wormhole_bridge : Pubkey
  emitter : Pubkey
  sequence : Pubkey
  wormhole_fee_collector : Pubkey
deriving DecidableEq

/-- The capability-address bundle snapshotted into `RedeemerConfig` (fields
as read by `RedeemNativeTransferWithPayload` in context.rs lines 419 to
468). -/
structure InboundTokenBridgeAddresses where
  config : Pubkey
  custody_signer : Pubkey
deriving DecidableEq

/-- Sender Config account data. -/
structure SenderConfig where
  owner : Pubkey
  token_bridge : OutboundTokenBridgeAddresses
  bump : Nat
deriving DecidableEq

/-- Redeemer Config account data. -/
structure RedeemerConfig where
  owner : Pubkey
  token_bridge : InboundTokenBridgeAddresses
  bump : Nat
deriving DecidableEq

/-- Foreign Contract account data: one registered trusted counterpart
program per remote chain. -/
structure ForeignContract where
  chain : Nat
  address : List Nat
  token_bridge_foreign_endpoint : Pubkey
deriving DecidableEq

/-- Wormhole sequence tracker account data (`wormhole::SequenceTracker`
from the wormhole SDK): the monotonically increasing per-emitter message
sequence counter. -/
structure SequenceTracker where
  sequence : Nat
deriving DecidableEq

/-- Modelled from the spec: `SequenceTracker::next_value` (wormhole SDK,
outside src/) returns the next value of the emitter sequence counter, read
before the messaging layer increments it when the message is posted. -/
def SequenceTracker.next_value (t : SequenceTracker) : Nat := t.sequence

/-- The payload of a verified hello_token transfer message, as read by
context.rs (`vaa.data().mint()`, `.to()`, `.to_chain()`, `.token_chain()`);
the destination address accessor `to()` is rendered `to_address` because
`to` is a reserved word here. -/
structure HelloTokenPayload where
  mint : Pubkey
  to_address : Pubkey
  to_chain : Nat
  token_chain : Nat
deriving DecidableEq

/-- A posted verified Wormhole message (`PostedHelloTokenMessage`): emitter
chain and address plus the transfer payload. -/
structure PostedHelloTokenMessage where
  emitter_chain : Nat
  emitter_address : List Nat
  payload : HelloTokenPayload
deriving DecidableEq

/-- Modelled from the spec: `ForeignContract::verify` (state.rs, not in
src/): the claimed emitter chain and emitter address of a verified message
must match this registered record. -/
def ForeignContract.verify (fc : ForeignContract)
    (vaa : PostedHelloTokenMessage) : Bool :=
  vaa.emitter_chain == fc.chain && vaa.emitter_address == fc.address

/-- Derived address of the `ForeignContract` record of a chain: seeds are
the record tag and the little-endian `u16` chain id (context.rs lines
154 to 163). -/
def foreignContractAddress (programId : Pubkey) (chain : Nat) : Pubkey :=
  .pda [SEED_FOREIGN_CONTRACT, leBytes 2 chain] programId

/-- Derived address of the singleton `SenderConfig` record. -/
def senderConfigAddress (programId : Pubkey) : Pubkey :=
  .pda [SEED_SENDER_CONFIG] programId

/-- Derived address of the singleton `RedeemerConfig` record. -/
def redeemerConfigAddress (programId : Pubkey) : Pubkey :=
  .pda [SEED_REDEEMER_CONFIG] programId

/-- Attributes of the ephemeral escrow token account created by both
transfer flows (context.rs lines 233 to 244 and 400 to 411): its address is
the PDA of the seed tag `b"tmp"` and the mint key, its token mint is the
transferred mint, and its token authority is the program config. -/
structure TokenAccountInit where
  key : Pubkey
  mint : Pubkey
  authority : Pubkey
deriving DecidableEq

/-- The escrow init attributes as written in the source: `seeds = [b"tmp",
mint.key().as_ref()]`, `token::mint = mint`, `token::authority = config`. -/
def tmpTokenInit (programId mint configKey : Pubkey) : TokenAccountInit :=
  { key := .pda [SEED_TMP, keyBytes mint] programId
    mint := mint
    authority := configKey }

/-! Accounts structs.  Each mirrors the fields of the corresponding Anchor
`#[derive(Accounts)]` struct in context.rs: for every account the supplied
address, and for the accounts whose data the constraints read, the
deserialized record as well.  Fields with no constraint at all (payer as a
signer, system and token programs) carry no check in the checker. -/

/-- Accounts supplied to `register_foreign_contract`
(`RegisterForeignContract`, context.rs lines 138 to 187). -/
structure RegisterForeignContractAccounts where
  owner_acct : Pubkey
  config_key : Pubkey
  config : SenderConfig
  foreign_contract_key : Pubkey
  token_bridge_foreign_endpoint_key : Pubkey
  token_bridge_foreign_endpoint_emitter_address : List Nat
  token_bridge_program : Pubkey
deriving DecidableEq

/-- Accounts supplied to `send_native_tokens_with_payload`
(`SendNativeTokensWithPayload`, context.rs lines 189 to 343), in field
order. -/
structure SendNativeAccounts where
  payer : Pubkey
  config_key : Pubkey
  config : SenderConfig
  foreign_contract_key : Pubkey
  mint : Pubkey
  from_token_account : Pubkey
  tmp_token_account : Pubkey
  wormhole_program : Pubkey
  token_bridge_program : Pubkey
  token_bridge_config : Pubkey
  token_bridge_custody : Pubkey
  token_bridge_authority_signer : Pubkey
  token_bridge_custody_signer : Pubkey
  wormhole_bridge : Pubkey
  wormhole_message : Pubkey
  token_bridge_emitter : Pubkey
  token_bridge_sequence_key : Pubkey
  token_bridge_sequence : SequenceTracker
  wormhole_fee_collector : Pubkey
  clock : Pubkey
  rent : Pubkey
deriving DecidableEq

/-- Accounts supplied to `redeem_native_transfer_with_payload`
(`RedeemNativeTransferWithPayload`, context.rs lines 345 to 484), in field
order. -/
structure RedeemNativeAccounts where
  payer : Pubkey
  payer_token_account : Pubkey
  config_key : Pubkey
  config : RedeemerConfig
  foreign_contract_key : Pubkey
  foreign_contract : ForeignContract
  mint : Pubkey
  recipient_token_account : Pubkey
  recipient : Pubkey
  tmp_token_account : Pubkey
  wormhole_program : Pubkey
  token_bridge_program : Pubkey
  token_bridge_config : Pubkey
  vaa_key : Pubkey
  vaa : PostedHelloTokenMessage
  token_bridge_claim : Pubkey
  token_bridge_foreign_endpoint : Pubkey
  token_bridge_custody : Pubkey
  token_bridge_custody_signer : Pubkey
  rent : Pubkey
deriving DecidableEq

/-- Evaluation of one account constraint: if the condition holds the
remaining checks run, otherwise the named error is raised.  This is the
semantics of every Anchor attribute constraint in context.rs. -/
def require {α : Type} (c : Prop) [Decidable c] (e : Err)
    (k : Except Err α) : Except Err α :=
  if c then k else .error e

/-- Constraint checks of `SendNativeTokensWithPayload`, in the order the
account fields are declared in context.rs.  PDA `seeds` checks compare the
supplied address with the derivation; `address = x @ E` checks compare with
the snapshot in `SenderConfig` and raise the named error; `associated_token`
checks compare with the canonical associated token address. -/
def checkSendNative (programId : Pubkey) (recipient_chain : Nat)
    (a : SendNativeAccounts) : Except Err Unit :=
  require (a.config_key = senderConfigAddress programId) .constraintSeeds <|
  require (a.foreign_contract_key = foreignContractAddress programId recipient_chain)
    .constraintSeeds <|
  require (a.from_token_account = associatedTokenAddress a.payer a.mint)
    .constraintAssociated <|
  require (a.tmp_token_account = (tmpTokenInit programId a.mint a.config_key).key)
    .constraintSeeds <|
  require (a.wormhole_program = WORMHOLE_PROGRAM_ID) .invalidProgramId <|
  require (a.token_bridge_program = TOKEN_BRIDGE_PROGRAM_ID) .invalidProgramId <|
  require (a.token_bridge_config = a.config.token_bridge.config)
    (.hello .InvalidTokenBridgeConfig) <|
  require (a.token_bridge_custody = .pda [keyBytes a.mint] a.token_bridge_program)
    .constraintSeeds <|
  require (a.token_bridge_authority_signer = a.config.token_bridge.authority_signer)
    (.hello .InvalidTokenBridgeAuthoritySigner) <|
  require (a.token_bridge_custody_signer = a.config.token_bridge.custody_signer)
    (.hello .InvalidTokenBridgeCustodySigner) <|
  require (a.wormhole_bridge = a.config.token_bridge.wormhole_bridge)
    (.hello .InvalidWormholeBridge) <|
  require (a.wormhole_message =
      .pda [SEED_PREFIX_BRIDGED, leBytes 8 a.token_bridge_sequence.next_value] programId)
    .constraintSeeds <|
  require (a.token_bridge_emitter = a.config.token_bridge.emitter)
    (.hello .InvalidTokenBridgeEmitter) <|
  require (a.token_bridge_sequence_key = a.config.token_bridge.sequence)
    (.hello .InvalidTokenBridgeSequence) <|
  require (a.wormhole_fee_collector = a.config.token_bridge.wormhole_fee_collector)
    (.hello .InvalidWormholeFeeCollector) <|
  require (a.clock = CLOCK_SYSVAR_ID) (.hello .InvalidSysvar) <|
  require (a.rent = RENT_SYSVAR_ID) (.hello .InvalidSysvar) <|
  .ok ()

/-- Constraint checks of `RedeemNativeTransferWithPayload`, in the order the
account fields are declared in context.rs.  The `payer_token_account`
constraint (line 355) is the disjunction written in the source; the `vaa`
account carries its posted-VAA seeds check followed by the three payload
constraints in their written order (lines 425 to 435). -/
def checkRedeemNative (programId : Pubkey) (vaa_hash : List Nat)
    (a : RedeemNativeAccounts) : Except Err Unit :=
  require (a.payer = a.recipient ∨
      a.payer_token_account = associatedTokenAddress a.payer a.mint)
    (.hello .InvalidPayerAta) <|
  require (a.config_key = redeemerConfigAddress programId) .constraintSeeds <|
  require (a.foreign_contract_key =
      foreignContractAddress programId a.vaa.emitter_chain) .constraintSeeds <|
  require (a.foreign_contract.verify a.vaa = true)
    (.hello .InvalidForeignContract) <|
  require (a.mint = a.vaa.payload.mint) .constraintAddress <|
  require (a.recipient_token_account = associatedTokenAddress a.recipient a.mint)
    .constraintAssociated <|
  require (a.tmp_token_account = (tmpTokenInit programId a.mint a.config_key).key)
    .constraintSeeds <|
  require (a.wormhole_program = WORMHOLE_PROGRAM_ID) .invalidProgramId <|
  require (a.token_bridge_program = TOKEN_BRIDGE_PROGRAM_ID) .invalidProgramId <|
  require (a.token_bridge_config = a.config.token_bridge.config)
    (.hello .InvalidTokenBridgeConfig) <|
  require (a.vaa_key = .pda [SEED_POSTED_VAA, vaa_hash] a.wormhole_program)
    .constraintSeeds <|
  require (a.vaa.payload.to_address = programId ∨
      a.vaa.payload.to_address = a.config_key)
    (.hello .InvalidTransferToAddress) <|
  require (a.vaa.payload.to_chain = CHAIN_ID_SOLANA)
    (.hello .InvalidTransferToChain) <|
  require (a.vaa.payload.token_chain = CHAIN_ID_SOLANA)
    (.hello .InvalidTransferTokenChain) <|
  require (a.token_bridge_foreign_endpoint =
      a.foreign_contract.token_bridge_foreign_endpoint)
    (.hello .InvalidTokenBridgeForeignEndpoint) <|
  require (a.token_bridge_custody = .pda [keyBytes a.mint] a.token_bridge_program)
    .constraintSeeds <|
  require (a.token_bridge_custody_signer = a.config.token_bridge.custody_signer)
    (.hello .InvalidTokenBridgeCustodySigner) <|
  require (a.rent = RENT_SYSVAR_ID) (.hello .InvalidSysvar) <|
  .ok ()

/-- The Foreign Contract registry: the program-owned records keyed by their
derived address. -/
abbrev Registry := List (Pubkey × ForeignContract)

/-- The records of a registry stored at a given derived address. -/
def entriesAt (reg : Registry) (k : Pubkey) : Registry :=
  reg.filter fun p => p.1 == k

/-- The create-or-overwrite effect of `init_if_needed` at a derived address
followed by the handler writing the record fields: if a record already
exists at the address it is overwritten in place, otherwise a record is
created. -/
def registryUpsert (reg : Registry) (k : Pubkey) (fc : ForeignContract) :
    Registry :=
  if reg.any (fun p => p.1 == k) then
    reg.map fun p => if p.1 == k then (k, fc) else p
  else
    reg ++ [(k, fc)]

/-- The `register_foreign_contract` call: the context checks of
`RegisterForeignContract` (context.rs lines 138 to 187) in field order
(`has_one = owner @ OwnerOnly` before the seeds of the same account, as
written), then the handler argument checks, then the registry write.
The handler body lives in lib.rs, which is not in src/; its two argument
checks and the record write are modelled from the spec (section 4.3):
`chain_id` must not equal the local chain and `contract_address` must be
non-zero, both rejected with `InvalidForeignContract`; on success the
record at the derived address holds the new chain, address and endpoint.
An error result models the atomically rolled-back call: no registry
change. -/
def registerForeignContract (programId : Pubkey) (chain : Nat)
    (contract_address : List Nat) (a : RegisterForeignContractAccounts)
    (reg : Registry) : Except Err Registry :=
  require (a.config.owner = a.owner_acct) (.hello .OwnerOnly) <|
  require (a.config_key = senderConfigAddress programId) .constraintSeeds <|
  require (a.foreign_contract_key = foreignContractAddress programId chain)
    .constraintSeeds <|
  require (a.token_bridge_foreign_endpoint_key =
      .pda [beBytes 2 chain, a.token_bridge_foreign_endpoint_emitter_address]
        a.token_bridge_program) .constraintSeeds <|
  require (a.token_bridge_program = TOKEN_BRIDGE_PROGRAM_ID) .invalidProgramId <|
  require (chain ≠ CHAIN_ID_SOLANA) (.hello .InvalidForeignContract) <|
  require (contract_address ≠ List.replicate 32 0)
    (.hello .InvalidForeignContract) <|
  .ok (registryUpsert reg (foreignContractAddress programId chain)
    { chain := chain
      address := contract_address
      token_bridge_foreign_endpoint := a.token_bridge_foreign_endpoint_key })

/-! Concrete example inputs, used by the witness theorems. -/

/-- Example program id. -/
def pidEx : Pubkey := .raw 0

/-- Example sender config data with a distinct snapshotted address for each
capability. -/
def senderCfgEx : SenderConfig :=
  { owner := .raw 10
    token_bridge :=
      { config := .raw 11
        authority_signer := .raw 12
        custody_signer := .raw 13
        wormhole_bridge := .raw 14
        emitter := .raw 15
        sequence := .raw 16
        wormhole_fee_collector := .raw 17 }
    bump := 0 }

/-- Example send accounts that satisfy every constraint of
`SendNativeTokensWithPayload` for recipient chain 2, with the sequence
tracker at 5. -/
def sendAccountsEx : SendNativeAccounts :=
  { payer := .raw 20
    config_key := senderConfigAddress pidEx
    config := senderCfgEx
    foreign_contract_key := foreignContractAddress pidEx 2
    mint := .raw 21
    from_token_account := associatedTokenAddress (.raw 20) (.raw 21)
    tmp_token_account := (tmpTokenInit pidEx (.raw 21) (senderConfigAddress pidEx)).key
    wormhole_program := WORMHOLE_PROGRAM_ID
    token_bridge_program := TOKEN_BRIDGE_PROGRAM_ID
    token_bridge_config := .raw 11
    token_bridge_custody := .pda [keyBytes (.raw 21)] TOKEN_BRIDGE_PROGRAM_ID
    token_bridge_authority_signer := .raw 12
    token_bridge_custody_signer := .raw 13
    wormhole_bridge := .raw 14
    wormhole_message := .pda [SEED_PREFIX_BRIDGED, leBytes 8 5] pidEx
    token_bridge_emitter := .raw 15
    token_bridge_sequence_key := .raw 16
    token_bridge_sequence := { sequence := 5 }
    wormhole_fee_collector := .raw 17
    clock := CLOCK_SYSVAR_ID
    rent := RENT_SYSVAR_ID }

/-- A second valid send accounts set, identical but with the sequence
tracker advanced to 6 and the message address derived accordingly. -/
def sendAccountsExB : SendNativeAccounts :=
  { sendAccountsEx with
    wormhole_message := .pda [SEED_PREFIX_BRIDGED, leBytes 8 6] pidEx
    token_bridge_sequence := { sequence := 6 } }

/-- Example redeemer config data. -/
def redeemerCfgEx : RedeemerConfig :=
  { owner := .raw 10
    token_bridge := { config := .raw 11, custody_signer := .raw 13 }
    bump := 0 }

/-- Example registered foreign contract for chain 2. -/
def fcEx : ForeignContract :=
  { chain := 2
    address := List.replicate 32 7
    token_bridge_foreign_endpoint := .raw 30 }

/-- Example verified message from chain 2 addressed to the redeemer config,
transferring mint `.raw 21` on the local chain. -/
def vaaEx : PostedHelloTokenMessage :=
  { emitter_chain := 2
    emitter_address := List.replicate 32 7
    payload :=
      { mint := .raw 21
        to_address := redeemerConfigAddress pidEx
        to_chain := CHAIN_ID_SOLANA
        token_chain := CHAIN_ID_SOLANA } }

/-- Example hash locating `vaaEx`. -/
def vaaHashEx : List Nat := List.replicate 32 1

/-- Example redeem accounts that satisfy every constraint of
`RedeemNativeTransferWithPayload` (payer and recipient coincide). -/
def redeemAccountsEx : RedeemNativeAccounts :=
  { payer := .raw 20
    payer_token_account := .raw 99
    config_key := redeemerConfigAddress pidEx
    config := redeemerCfgEx
    foreign_contract_key := foreignContractAddress pidEx 2
    foreign_contract := fcEx
    mint := .raw 21
    recipient_token_account := associatedTokenAddress (.raw 20) (.raw 21)
    recipient := .raw 20
    tmp_token_account := (tmpTokenInit pidEx (.raw 21) (redeemerConfigAddress pidEx)).key
    wormhole_program := WORMHOLE_PROGRAM_ID
    token_bridge_program := TOKEN_BRIDGE_PROGRAM_ID
    token_bridge_config := .raw 11
    vaa_key := .pda [SEED_POSTED_VAA, vaaHashEx] WORMHOLE_PROGRAM_ID
    vaa := vaaEx
    token_bridge_claim := .raw 31
    token_bridge_foreign_endpoint := .raw 30
    token_bridge_custody := .pda [keyBytes (.raw 21)] TOKEN_BRIDGE_PROGRAM_ID
    token_bridge_custody_signer := .raw 13
    rent := RENT_SYSVAR_ID }

/-! Named bundles of checker conditions, used to state which other checks
are assumed to pass when a claim isolates one particular check. -/

/-- The non-snapshot checks of `SendNativeTokensWithPayload`: the PDA seeds
checks, the associated-token check, the program id checks and the sysvar
checks — every condition of `checkSendNative` other than the seven
snapshot-equality checks against `SenderConfig`. -/
abbrev sendStructuralOk (pid : Pubkey) (rc : Nat) (a : SendNativeAccounts) : Prop :=
  a.config_key = senderConfigAddress pid ∧
  a.foreign_contract_key = foreignContractAddress pid rc ∧
  a.from_token_account = associatedTokenAddress a.payer a.mint ∧
  a.tmp_token_account = (tmpTokenInit pid a.mint a.config_key).key ∧
  a.wormhole_program = WORMHOLE_PROGRAM_ID ∧
  a.token_bridge_program = TOKEN_BRIDGE_PROGRAM_ID ∧
  a.token_bridge_custody = .pda [keyBytes a.mint] a.token_bridge_program ∧
  a.wormhole_message =
    .pda [SEED_PREFIX_BRIDGED, leBytes 8 a.token_bridge_sequence.next_value] pid ∧
  a.clock = CLOCK_SYSVAR_ID ∧
  a.rent = RENT_SYSVAR_ID

/-- The checks of `RedeemNativeTransferWithPayload` that precede the three
payload constraints on the `vaa` account (context.rs lines 432 to 434):
all conditions of `checkRedeemNative` up to and including the posted-VAA
seeds check. -/
abbrev redeemPreVaaOk (pid : Pubkey) (vh : List Nat)
    (a : RedeemNativeAccounts) : Prop :=
  (a.payer = a.recipient ∨
    a.payer_token_account = associatedTokenAddress a.payer a.mint) ∧
  a.config_key = redeemerConfigAddress pid ∧
  a.foreign_contract_key = foreignContractAddress pid a.vaa.emitter_chain ∧
  a.foreign_contract.verify a.vaa = true ∧
  a.mint = a.vaa.payload.mint ∧
  a.recipient_token_account = associatedTokenAddress a.recipient a.mint ∧
  a.tmp_token_account = (tmpTokenInit pid a.mint a.config_key).key ∧
  a.wormhole_program = WORMHOLE_PROGRAM_ID ∧
  a.token_bridge_program = TOKEN_BRIDGE_PROGRAM_ID ∧
  a.token_bridge_config = a.config.token_bridge.config ∧
  a.vaa_key = .pda [SEED_POSTED_VAA, vh] a.wormhole_program

/-- Every condition of `checkRedeemNative` except the payer-token-account
constraint. -/
abbrev redeemNonPayerChecksOk (pid : Pubkey) (vh : List Nat)
    (a : RedeemNativeAccounts) : Prop :=
  a.config_key = redeemerConfigAddress pid ∧
  a.foreign_contract_key = foreignContractAddress pid a.vaa.emitter_chain ∧
  a.foreign_contract.verify a.vaa = true ∧
  a.mint = a.vaa.payload.mint ∧
  a.recipient_token_account = associatedTokenAddress a.recipient a.mint ∧
  a.tmp_token_account = (tmpTokenInit pid a.mint a.config_key).key ∧
  a.wormhole_program = WORMHOLE_PROGRAM_ID ∧
  a.token_bridge_program = TOKEN_BRIDGE_PROGRAM_ID ∧
  a.token_bridge_config = a.config.token_bridge.config ∧
  a.vaa_key = .pda [SEED_POSTED_VAA, vh] a.wormhole_program ∧
  (a.vaa.payload.to_address = pid ∨ a.vaa.payload.to_address = a.config_key) ∧
  a.vaa.payload.to_chain = CHAIN_ID_SOLANA ∧
  a.vaa.payload.token_chain = CHAIN_ID_SOLANA ∧
  a.token_bridge_foreign_endpoint =
    a.foreign_contract.token_bridge_foreign_endpoint ∧
  a.token_bridge_custody = .pda [keyBytes a.mint] a.token_bridge_program ∧
  a.token_bridge_custody_signer = a.config.token_bridge.custody_signer ∧
  a.rent = RENT_SYSVAR_ID

/-- Example register accounts whose signer is the configured owner. -/
def registerAccountsEx : RegisterForeignContractAccounts :=
  { owner_acct := .raw 10
    config_key := senderConfigAddress pidEx
    config := senderCfgEx
    foreign_contract_key := foreignContractAddress pidEx 2
    token_bridge_foreign_endpoint_key :=
      .pda [beBytes 2 2, List.replicate 32 7] TOKEN_BRIDGE_PROGRAM_ID
    token_bridge_foreign_endpoint_emitter_address := List.replicate 32 7
    token_bridge_program := TOKEN_BRIDGE_PROGRAM_ID }

/-- Redeem accounts for a relayer call: the payer differs from the
recipient and the supplied payer token account is not the associated
account of the payer for the mint; every other constraint holds. -/
def redeemRelayerBadAtaEx : RedeemNativeAccounts :=
  { redeemAccountsEx with
    recipient := .raw 50
    recipient_token_account := associatedTokenAddress (.raw 50) (.raw 21) }

/-- Redeem accounts whose verified message names a destination address that
is neither the program nor the redeemer config. -/
def redeemBadToEx : RedeemNativeAccounts :=
  { redeemAccountsEx with
    vaa := { vaaEx with payload := { vaaEx.payload with to_address := .raw 77 } } }

/-- Redeem accounts whose verified message names destination chain 9
instead of the local chain. -/
def redeemBadToChainEx : RedeemNativeAccounts :=
  { redeemAccountsEx with
    vaa := { vaaEx with payload := { vaaEx.payload with to_chain := 9 } } }

/-- Redeem accounts whose verified message names token origin chain 9
instead of the local chain. -/
def redeemBadTokenChainEx : RedeemNativeAccounts :=
  { redeemAccountsEx with
    vaa := { vaaEx with payload := { vaaEx.payload with token_chain := 9 } } }

/-- Redeem accounts supplying a mint other than the one recorded in the
verified message payload. -/
def redeemBadMintEx : RedeemNativeAccounts :=
  { redeemAccountsEx with mint := .raw 22 }

/-- Register accounts whose signer is not the configured owner. -/
def nonOwnerRegisterEx : RegisterForeignContractAccounts :=
  { registerAccountsEx with owner_acct := .raw 66 }

/-- Register accounts targeting the local chain id (chain 1), with all
context checks satisfied for that chain. -/
def localChainRegisterEx : RegisterForeignContractAccounts :=
  { registerAccountsEx with
    foreign_contract_key := foreignContractAddress pidEx CHAIN_ID_SOLANA
    token_bridge_foreign_endpoint_key :=
      .pda [beBytes 2 CHAIN_ID_SOLANA, List.replicate 32 7] TOKEN_BRIDGE_PROGRAM_ID }

/-- The registry after registering chain 2 with contract address 3…3 on an
empty registry. -/
def reg1Ex : Registry :=
  [(foreignContractAddress pidEx 2,
    { chain := 2
      address := List.replicate 32 3
      token_bridge_foreign_endpoint :=
        registerAccountsEx.token_bridge_foreign_endpoint_key })]

/-- The registry after re-registering chain 2 with contract address 4…4. -/
def reg2Ex : Registry :=
  [(foreignContractAddress pidEx 2,
    { chain := 2
      address := List.replicate 32 4
      token_bridge_foreign_endpoint :=
        registerAccountsEx.token_bridge_foreign_endpoint_key })]

/-! Characterization lemmas for the checkers. -/

theorem require_ok_iff {α : Type} (c : Prop) [Decidable c] (e : Err)
    (k : Except Err α) (x : α) :
    require c e k = .ok x ↔ (c ∧ k = .ok x) := by
  unfold require
  split_ifs <;> simp_all

theorem require_error_iff {α : Type} (c : Prop) [Decidable c] (e : Err)
    (k : Except Err α) (e2 : Err) :
    require c e k = .error e2 ↔ ((¬c ∧ e2 = e) ∨ (c ∧ k = .error e2)) := by
  unfold require
  split_ifs <;> simp_all
  exact eq_comm

theorem checkSendNative_ok_iff (pid : Pubkey) (rc : Nat) (a : SendNativeAccounts) :
    checkSendNative pid rc a = .ok () ↔
      (a.config_key = senderConfigAddress pid ∧
       a.foreign_contract_key = foreignContractAddress pid rc ∧
       a.from_token_account = associatedTokenAddress a.payer a.mint ∧
       a.tmp_token_account = (tmpTokenInit pid a.mint a.config_key).key ∧
       a.wormhole_program = WORMHOLE_PROGRAM_ID ∧
       a.token_bridge_program = TOKEN_BRIDGE_PROGRAM_ID ∧
       a.token_bridge_config = a.config.token_bridge.config ∧
       a.token_bridge_custody = .pda [keyBytes a.mint] a.token_bridge_program ∧
       a.token_bridge_authority_signer = a.config.token_bridge.authority_signer ∧
       a.token_bridge_custody_signer = a.config.token_bridge.custody_signer ∧
       a.wormhole_bridge = a.config.token_bridge.wormhole_bridge ∧
       a.wormhole_message =
         .pda [SEED_PREFIX_BRIDGED, leBytes 8 a.token_bridge_sequence.next_value] pid ∧
       a.token_bridge_emitter = a.config.token_bridge.emitter ∧
       a.token_bridge_sequence_key = a.config.token_bridge.sequence ∧
       a.wormhole_fee_collector = a.config.token_bridge.wormhole_fee_collector ∧
       a.clock = CLOCK_SYSVAR_ID ∧
       a.rent = RENT_SYSVAR_ID) := by
  simp only [checkSendNative, require_ok_iff, and_true]

theorem checkRedeemNative_ok_iff (pid : Pubkey) (vh : List Nat)
    (a : RedeemNativeAccounts) :
    checkRedeemNative pid vh a = .ok () ↔
      ((a.payer = a.recipient ∨
          a.payer_token_account = associatedTokenAddress a.payer a.mint) ∧
       a.config_key = redeemerConfigAddress pid ∧
       a.foreign_contract_key = foreignContractAddress pid a.vaa.emitter_chain ∧
       a.foreign_contract.verify a.vaa = true ∧
       a.mint = a.vaa.payload.mint ∧
       a.recipient_token_account = associatedTokenAddress a.recipient a.mint ∧
       a.tmp_token_account = (tmpTokenInit pid a.mint a.config_key).key ∧
       a.wormhole_program = WORMHOLE_PROGRAM_ID ∧
       a.token_bridge_program = TOKEN_BRIDGE_PROGRAM_ID ∧
       a.token_bridge_config = a.config.token_bridge.config ∧
       a.vaa_key = .pda [SEED_POSTED_VAA, vh] a.wormhole_program ∧
       (a.vaa.payload.to_address = pid ∨ a.vaa.payload.to_address = a.config_key) ∧
       a.vaa.payload.to_chain = CHAIN_ID_SOLANA ∧
       a.vaa.payload.token_chain = CHAIN_ID_SOLANA ∧
       a.token_bridge_foreign_endpoint =
         a.foreign_contract.token_bridge_foreign_endpoint ∧
       a.token_bridge_custody = .pda [keyBytes a.mint] a.token_bridge_program ∧
       a.token_bridge_custody_signer = a.config.token_bridge.custody_signer ∧
       a.rent = RENT_SYSVAR_ID) := by
  simp only [checkRedeemNative, require_ok_iff, and_true]

theorem entriesAt_map_overwrite (k : Pubkey) (fc : ForeignContract)
    (reg : Registry) :
    entriesAt (reg.map fun p => if p.1 == k then (k, fc) else p) k
      = (entriesAt reg k).map fun _ => (k, fc) := by
  induction reg with
  | nil => rfl
  | cons p t ih =>
    by_cases hp : p.1 = k
    · simp [entriesAt, List.filter_cons, beq_iff_eq, hp] at ih ⊢
      exact ih
    · simp [entriesAt, List.filter_cons, beq_iff_eq, hp] at ih ⊢
      exact ih

theorem entriesAt_upsert (reg : Registry) (k : Pubkey) (fc : ForeignContract)
    (h : (entriesAt reg k).length ≤ 1) :
    entriesAt (registryUpsert reg k fc) k = [(k, fc)] := by
  unfold registryUpsert
  by_cases hany : reg.any (fun p => p.1 == k) = true
  · rw [if_pos hany, entriesAt_map_overwrite]
    obtain ⟨p, hpmem, hpk⟩ := List.any_eq_true.mp hany
    have hmem : p ∈ entriesAt reg k := List.mem_filter.mpr ⟨hpmem, hpk⟩
    have hne : entriesAt reg k ≠ [] := by
      intro hnil
      rw [hnil] at hmem
      exact absurd hmem (List.not_mem_nil p)
    have hlen : (entriesAt reg k).length = 1 := by
      have hpos : 0 < (entriesAt reg k).length := List.length_pos.mpr hne
      omega
    obtain ⟨x, hx⟩ := List.length_eq_one.mp hlen
    rw [hx]
    rfl
  · rw [if_neg hany]
    unfold entriesAt
    rw [List.filter_append]
    have h0 : reg.filter (fun p => p.1 == k) = [] := by
      rw [List.filter_eq_nil_iff]
      intro p hp hpk
      exact hany (List.any_eq_true.mpr ⟨p, hp, hpk⟩)
    rw [h0]
    simp

theorem registerForeignContract_ok_iff (pid : Pubkey) (chain : Nat)
    (addr : List Nat) (a : RegisterForeignContractAccounts)
    (reg reg2 : Registry) :
    registerForeignContract pid chain addr a reg = .ok reg2 ↔
      (a.config.owner = a.owner_acct ∧
       a.config_key = senderConfigAddress pid ∧
       a.foreign_contract_key = foreignContractAddress pid chain ∧
       a.token_bridge_foreign_endpoint_key =
         .pda [beBytes 2 chain, a.token_bridge_foreign_endpoint_emitter_address]
           a.token_bridge_program ∧
       a.token_bridge_program = TOKEN_BRIDGE_PROGRAM_ID ∧
       chain ≠ CHAIN_ID_SOLANA ∧
       addr ≠ List.replicate 32 0 ∧
       registryUpsert reg (foreignContractAddress pid chain)
         { chain := chain
           address := addr
           token_bridge_foreign_endpoint :=
             a.token_bridge_foreign_endpoint_key } = reg2) := by
  simp only [registerForeignContract, require_ok_iff, Except.ok.injEq]

/-! Claim theorems. -/

/-- C1: in every send_native call that passes validation, the outbound
Wormhole message account address is the PDA of the seed tag `b"bridged"`
and the little-endian bytes of the next value of the emitter sequence tracker
(read before any increment), and two passing calls whose next values differ
(as `u64` values) use distinct message addresses — so each successful call
uses a distinct, caller-predictable message address. -/
theorem send_native_message_address (pid : Pubkey) (rc rc2 : Nat)
    (a b : SendNativeAccounts)
    (ha : checkSendNative pid rc a = .ok ())
    (hb : checkSendNative pid rc2 b = .ok ())
    (hna : a.token_bridge_sequence.next_value < 2 ^ 64)
    (hnb : b.token_bridge_sequence.next_value < 2 ^ 64)
    (hne : a.token_bridge_sequence.next_value ≠ b.token_bridge_sequence.next_value) :
    a.wormhole_message =
      .pda [SEED_PREFIX_BRIDGED, leBytes 8 a.token_bridge_sequence.next_value] pid
    ∧ a.wormhole_message ≠ b.wormhole_message := by
  have Ha := (checkSendNative_ok_iff pid rc a).mp ha
  have Hb := (checkSendNative_ok_iff pid rc2 b).mp hb
  have hma : a.wormhole_message =
      .pda [SEED_PREFIX_BRIDGED, leBytes 8 a.token_bridge_sequence.next_value] pid :=
    Ha.2.2.2.2.2.2.2.2.2.2.2.1
  have hmb : b.wormhole_message =
      .pda [SEED_PREFIX_BRIDGED, leBytes 8 b.token_bridge_sequence.next_value] pid :=
    Hb.2.2.2.2.2.2.2.2.2.2.2.1
  refine ⟨hma, ?_⟩
  rw [hma, hmb]
  intro hcon
  apply hne
  have h256 : (2 : Nat) ^ 64 = 256 ^ 8 := by norm_num
  rw [h256] at hna hnb
  apply leBytes_inj hna hnb
  simp only [Pubkey.pda.injEq, List.cons.injEq, and_true, true_and] at hcon
  exact hcon

/-- C1 witness: two concrete passing send calls with sequence values 5 and
6 derive the stated message address and distinct addresses. -/
theorem send_native_message_address_witness :
    sendAccountsEx.wormhole_message =
      .pda [SEED_PREFIX_BRIDGED,
        leBytes 8 sendAccountsEx.token_bridge_sequence.next_value] pidEx
    ∧ sendAccountsEx.wormhole_message ≠ sendAccountsExB.wormhole_message :=
  send_native_message_address pidEx 2 2 sendAccountsEx sendAccountsExB
    (by rfl) (by rfl) (by decide) (by decide) (by decide)

/-- C5: assuming the non-snapshot checks of send_native pass, each of the
seven live capability accounts is compared by address equality against the
snapshot in `SenderConfig`, in declaration order, and a mismatch fails the
call with exactly the error naming that capability; the call passes
validation exactly when all seven match. -/
theorem send_native_capability_checks (pid : Pubkey) (rc : Nat)
    (a : SendNativeAccounts) (hs : sendStructuralOk pid rc a) :
    (checkSendNative pid rc a = .error (.hello .InvalidTokenBridgeConfig) ↔
       a.token_bridge_config ≠ a.config.token_bridge.config)
    ∧ (a.token_bridge_config = a.config.token_bridge.config →
       (checkSendNative pid rc a = .error (.hello .InvalidTokenBridgeAuthoritySigner) ↔
         a.token_bridge_authority_signer ≠ a.config.token_bridge.authority_signer))
    ∧ (a.token_bridge_config = a.config.token_bridge.config →
       a.token_bridge_authority_signer = a.config.token_bridge.authority_signer →
       (checkSendNative pid rc a = .error (.hello .InvalidTokenBridgeCustodySigner) ↔
         a.token_bridge_custody_signer ≠ a.config.token_bridge.custody_signer))
    ∧ (a.token_bridge_config = a.config.token_bridge.config →
       a.token_bridge_authority_signer = a.config.token_bridge.authority_signer →
       a.token_bridge_custody_signer = a.config.token_bridge.custody_signer →
       (checkSendNative pid rc a = .error (.hello .InvalidWormholeBridge) ↔
         a.wormhole_bridge ≠ a.config.token_bridge.wormhole_bridge))
    ∧ (a.token_bridge_config = a.config.token_bridge.config →
       a.token_bridge_authority_signer = a.config.token_bridge.authority_signer →
       a.token_bridge_custody_signer = a.config.token_bridge.custody_signer →
       a.wormhole_bridge = a.config.token_bridge.wormhole_bridge →
       (checkSendNative pid rc a = .error (.hello .InvalidTokenBridgeEmitter) ↔
         a.token_bridge_emitter ≠ a.config.token_bridge.emitter))
    ∧ (a.token_bridge_config = a.config.token_bridge.config →
       a.token_bridge_authority_signer = a.config.token_bridge.authority_signer →
       a.token_bridge_custody_signer = a.config.token_bridge.custody_signer →
       a.wormhole_bridge = a.config.token_bridge.wormhole_bridge →
       a.token_bridge_emitter = a.config.token_bridge.emitter →
       (checkSendNative pid rc a = .error (.hello .InvalidTokenBridgeSequence) ↔
         a.token_bridge_sequence_key ≠ a.config.token_bridge.sequence))
    ∧ (a.token_bridge_config = a.config.token_bridge.config →
       a.token_bridge_authority_signer = a.config.token_bridge.authority_signer →
       a.token_bridge_custody_signer = a.config.token_bridge.custody_signer →
       a.wormhole_bridge = a.config.token_bridge.wormhole_bridge →
       a.token_bridge_emitter = a.config.token_bridge.emitter →
       a.token_bridge_sequence_key = a.config.token_bridge.sequence →
       (checkSendNative pid rc a = .error (.hello .InvalidWormholeFeeCollector) ↔
         a.wormhole_fee_collector ≠ a.config.token_bridge.wormhole_fee_collector))
    ∧ (checkSendNative pid rc a = .ok () ↔
       (a.token_bridge_config = a.config.token_bridge.config ∧
        a.token_bridge_authority_signer = a.config.token_bridge.authority_signer ∧
        a.token_bridge_custody_signer = a.config.token_bridge.custody_signer ∧
        a.wormhole_bridge = a.config.token_bridge.wormhole_bridge ∧
        a.token_bridge_emitter = a.config.token_bridge.emitter ∧
        a.token_bridge_sequence_key = a.config.token_bridge.sequence ∧
        a.wormhole_fee_collector = a.config.token_bridge.wormhole_fee_collector)) := by
  obtain ⟨s1, s2, s3, s4, s5, s6, s7, s8, s9, s10⟩ := hs
  refine ⟨?_, ?_, ?_, ?_, ?_, ?_, ?_, ?_⟩
  · simp [checkSendNative, require_error_iff, s1, s2, s3, s4, s5, s6, s7, s8, s9, s10]
  · intro h7
    simp [checkSendNative, require_error_iff, s1, s2, s3, s4, s5, s6, s7, s8, s9,
      s10, h7]
  · intro h7 h9
    simp [checkSendNative, require_error_iff, s1, s2, s3, s4, s5, s6, s7, s8, s9,
      s10, h7, h9]
  · intro h7 h9 h10
    simp [checkSendNative, require_error_iff, s1, s2, s3, s4, s5, s6, s7, s8, s9,
      s10, h7, h9, h10]
  · intro h7 h9 h10 h11
    simp [checkSendNative, require_error_iff, s1, s2, s3, s4, s5, s6, s7, s8, s9,
      s10, h7, h9, h10, h11]
  · intro h7 h9 h10 h11 h13
    simp [checkSendNative, require_error_iff, s1, s2, s3, s4, s5, s6, s7, s8, s9,
      s10, h7, h9, h10, h11, h13]
  · intro h7 h9 h10 h11 h13 h14
    simp [checkSendNative, require_error_iff, s1, s2, s3, s4, s5, s6, s7, s8, s9,
      s10, h7, h9, h10, h11, h13, h14]
  · simp [checkSendNative, require_ok_iff, s1, s2, s3, s4, s5, s6, s7, s8, s9, s10]

/-- C5 witness: on concrete accounts passing all structural checks with all
seven capability addresses matching the snapshot, validation passes. -/
theorem send_native_capability_checks_witness :
    checkSendNative pidEx 2 sendAccountsEx = .ok () :=
  (send_native_capability_checks pidEx 2 sendAccountsEx
    (by decide)).2.2.2.2.2.2.2.mpr (by decide)

/-- C9: in both send_native and redeem_native, a call that passes
validation uses the ephemeral escrow token account at the PDA of exactly
the seed tag `b"tmp"` and the mint key (with the config as its token
authority, per `tmpTokenInit`), so a send and a redemption on the same mint
derive the same escrow address; no per-call or per-transfer field enters
the derivation. -/
theorem tmp_escrow_address_shared (pid : Pubkey) (rc : Nat) (vh : List Nat)
    (a : SendNativeAccounts) (b : RedeemNativeAccounts)
    (ha : checkSendNative pid rc a = .ok ())
    (hb : checkRedeemNative pid vh b = .ok ()) :
    a.tmp_token_account = (tmpTokenInit pid a.mint a.config_key).key
    ∧ b.tmp_token_account = (tmpTokenInit pid b.mint b.config_key).key
    ∧ (a.mint = b.mint → a.tmp_token_account = b.tmp_token_account) := by
  have Ha := (checkSendNative_ok_iff pid rc a).mp ha
  have Hb := (checkRedeemNative_ok_iff pid vh b).mp hb
  have h1 : a.tmp_token_account = (tmpTokenInit pid a.mint a.config_key).key :=
    Ha.2.2.2.1
  have h2 : b.tmp_token_account = (tmpTokenInit pid b.mint b.config_key).key :=
    Hb.2.2.2.2.2.2.1
  refine ⟨h1, h2, ?_⟩
  intro hm
  rw [h1, h2, hm]
  rfl

/-- C9 witness: a concrete passing send and a concrete passing redemption
on the same mint use the stated derivation and the same escrow address. -/
theorem tmp_escrow_address_shared_witness :
    sendAccountsEx.tmp_token_account =
      (tmpTokenInit pidEx sendAccountsEx.mint sendAccountsEx.config_key).key
    ∧ redeemAccountsEx.tmp_token_account =
      (tmpTokenInit pidEx redeemAccountsEx.mint redeemAccountsEx.config_key).key
    ∧ (sendAccountsEx.mint = redeemAccountsEx.mint →
        sendAccountsEx.tmp_token_account = redeemAccountsEx.tmp_token_account) :=
  tmp_escrow_address_shared pidEx 2 vaaHashEx sendAccountsEx redeemAccountsEx
    (by rfl) (by rfl)

/-- C2: redeem_native enforces the payer token-account policy: a call that
passes validation has the payer equal to the recipient or the payer token
account equal to the canonical associated token account of (payer, mint);
when payer and recipient coincide the `InvalidPayerAta` error is never
raised; and when every other check passes, a payer distinct from the
recipient supplying a non-canonical token account fails with exactly
`InvalidPayerAta`. -/
theorem redeem_native_payer_ata_policy (pid : Pubkey) (vh : List Nat)
    (a : RedeemNativeAccounts) :
    (checkRedeemNative pid vh a = .ok () →
      (a.payer = a.recipient ∨
        a.payer_token_account = associatedTokenAddress a.payer a.mint))
    ∧ (a.payer = a.recipient →
        checkRedeemNative pid vh a ≠ .error (.hello .InvalidPayerAta))
    ∧ (redeemNonPayerChecksOk pid vh a → a.payer ≠ a.recipient →
        a.payer_token_account ≠ associatedTokenAddress a.payer a.mint →
        checkRedeemNative pid vh a = .error (.hello .InvalidPayerAta)) := by
  refine ⟨?_, ?_, ?_⟩
  · intro h
    exact ((checkRedeemNative_ok_iff pid vh a).mp h).1
  · intro hpr
    simp [checkRedeemNative, require_error_iff, hpr]
  · intro _ hne1 hne2
    simp [checkRedeemNative, require_error_iff, hne1, hne2]

/-- C2 witness: a concrete relayer call (payer distinct from recipient)
with a non-canonical payer token account and all other checks passing
fails with `InvalidPayerAta`. -/
theorem redeem_native_payer_ata_policy_witness :
    checkRedeemNative pidEx vaaHashEx redeemRelayerBadAtaEx =
      .error (.hello .InvalidPayerAta) :=
  (redeem_native_payer_ata_policy pidEx vaaHashEx redeemRelayerBadAtaEx).2.2
    (by decide) (by decide) (by decide)

/-- C3: assuming the checks preceding the payload constraints pass, a
redeem_native call fails with `InvalidTransferToAddress` exactly when the
verified payload destination address is neither the program identity nor
the RedeemerConfig address; for exactly those two destination values the
call proceeds past this check. -/
theorem redeem_native_transfer_to_address_check (pid : Pubkey)
    (vh : List Nat) (a : RedeemNativeAccounts)
    (hpre : redeemPreVaaOk pid vh a) :
    checkRedeemNative pid vh a = .error (.hello .InvalidTransferToAddress)
    ↔ (a.vaa.payload.to_address ≠ pid ∧
       a.vaa.payload.to_address ≠ a.config_key) := by
  obtain ⟨h1, h2, h3, h4, h5, h6, h7, h8, h9, h10, h11⟩ := hpre
  rw [h5] at h1
  simp [checkRedeemNative, require_error_iff, h1, h2, h3, h4, h5, h6, h7, h8,
    h9, h10, h11, not_or]

/-- C3 witness: a concrete call whose payload destination is an unrelated
address fails with `InvalidTransferToAddress`. -/
theorem redeem_native_transfer_to_address_check_witness :
    checkRedeemNative pidEx vaaHashEx redeemBadToEx =
      .error (.hello .InvalidTransferToAddress) :=
  (redeem_native_transfer_to_address_check pidEx vaaHashEx redeemBadToEx
    (by decide)).mpr (by decide)

/-- C4: assuming the checks preceding the payload constraints pass and the
destination address is acceptable, a redeem_native call fails with
`InvalidTransferToChain` exactly when the payload destination chain is not
the local chain, and (when the destination chain is local) fails with
`InvalidTransferTokenChain` exactly when the payload token origin chain is
not the local chain — only same-chain-native-destination transfers pass. -/
theorem redeem_native_chain_checks (pid : Pubkey) (vh : List Nat)
    (a : RedeemNativeAccounts) (hpre : redeemPreVaaOk pid vh a)
    (hto : a.vaa.payload.to_address = pid ∨
      a.vaa.payload.to_address = a.config_key) :
    (checkRedeemNative pid vh a = .error (.hello .InvalidTransferToChain) ↔
      a.vaa.payload.to_chain ≠ CHAIN_ID_SOLANA)
    ∧ (a.vaa.payload.to_chain = CHAIN_ID_SOLANA →
       (checkRedeemNative pid vh a = .error (.hello .InvalidTransferTokenChain) ↔
         a.vaa.payload.token_chain ≠ CHAIN_ID_SOLANA)) := by
  obtain ⟨h1, h2, h3, h4, h5, h6, h7, h8, h9, h10, h11⟩ := hpre
  rw [h5] at h1
  rw [h2] at hto
  constructor
  · simp [checkRedeemNative, require_error_iff, h1, h2, h3, h4, h5, h6, h7, h8,
      h9, h10, h11, hto]
  · intro htc
    simp [checkRedeemNative, require_error_iff, h1, h2, h3, h4, h5, h6, h7, h8,
      h9, h10, h11, hto, htc]

/-- C4 witness: a concrete call whose payload destination chain is 9 fails
with `InvalidTransferToChain`. -/
theorem redeem_native_chain_checks_witness :
    checkRedeemNative pidEx vaaHashEx redeemBadToChainEx =
      .error (.hello .InvalidTransferToChain) :=
  (redeem_native_chain_checks pidEx vaaHashEx redeemBadToChainEx
    (by decide) (by decide)).1.mpr (by decide)

/-- C10: the caller-supplied mint account of redeem_native must equal, by
address equality, the token mint recorded in the verified message payload:
a call that passes validation has the payload mint, and (assuming the
checks before the mint account pass) any other mint fails validation with
the address-constraint error, before any funds move. -/
theorem redeem_native_mint_from_vaa (pid : Pubkey) (vh : List Nat)
    (a : RedeemNativeAccounts)
    (h1 : a.payer = a.recipient ∨
      a.payer_token_account = associatedTokenAddress a.payer a.mint)
    (h2 : a.config_key = redeemerConfigAddress pid)
    (h3 : a.foreign_contract_key = foreignContractAddress pid a.vaa.emitter_chain)
    (h4 : a.foreign_contract.verify a.vaa = true) :
    (checkRedeemNative pid vh a = .error .constraintAddress ↔
      a.mint ≠ a.vaa.payload.mint)
    ∧ (checkRedeemNative pid vh a = .ok () → a.mint = a.vaa.payload.mint) := by
  constructor
  · simp [checkRedeemNative, require_error_iff, h1, h2, h3, h4]
  · intro h
    exact ((checkRedeemNative_ok_iff pid vh a).mp h).2.2.2.2.1

/-- C10 witness: a concrete call supplying a mint other than the payload
mint fails with the address-constraint error. -/
theorem redeem_native_mint_from_vaa_witness :
    checkRedeemNative pidEx vaaHashEx redeemBadMintEx =
      .error .constraintAddress :=
  (redeem_native_mint_from_vaa pidEx vaaHashEx redeemBadMintEx
    (by decide) (by decide) (by decide) (by decide)).1.mpr (by decide)

/-- C6: the ForeignContract record address is derived solely from the chain
id (`foreignContractAddress`), and registration is an idempotent upsert:
starting from a registry holding at most one record at that address, two
successful registrations for the same chain — with any two contract
addresses — leave exactly one record at that address, holding the chain and
the contract address of the second registration (created if absent,
overwritten if present, never duplicated or appended). -/
theorem register_foreign_contract_upsert (pid : Pubkey) (c : Nat)
    (addr1 addr2 : List Nat) (a1 a2 : RegisterForeignContractAccounts)
    (reg0 reg1 reg2 : Registry)
    (h0 : (entriesAt reg0 (foreignContractAddress pid c)).length ≤ 1)
    (h1 : registerForeignContract pid c addr1 a1 reg0 = .ok reg1)
    (h2 : registerForeignContract pid c addr2 a2 reg1 = .ok reg2) :
    entriesAt reg2 (foreignContractAddress pid c)
      = [(foreignContractAddress pid c,
          { chain := c
            address := addr2
            token_bridge_foreign_endpoint :=
              a2.token_bridge_foreign_endpoint_key })] := by
  have e1 := ((registerForeignContract_ok_iff pid c addr1 a1 reg0 reg1).mp
    h1).2.2.2.2.2.2.2
  have e2 := ((registerForeignContract_ok_iff pid c addr2 a2 reg1 reg2).mp
    h2).2.2.2.2.2.2.2
  have l1 : entriesAt reg1 (foreignContractAddress pid c)
      = [(foreignContractAddress pid c,
          { chain := c
            address := addr1
            token_bridge_foreign_endpoint :=
              a1.token_bridge_foreign_endpoint_key })] := by
    rw [← e1]
    exact entriesAt_upsert reg0 _ _ h0
  have l1len : (entriesAt reg1 (foreignContractAddress pid c)).length ≤ 1 := by
    rw [l1]
    simp
  rw [← e2]
  exact entriesAt_upsert reg1 _ _ l1len

/-- C6 witness: concretely registering chain 2 twice, with addresses 3…3
then 4…4, on the empty registry leaves exactly one record holding the
second address. -/
theorem register_foreign_contract_upsert_witness :
    entriesAt reg2Ex (foreignContractAddress pidEx 2)
      = [(foreignContractAddress pidEx 2,
          { chain := 2
            address := List.replicate 32 4
            token_bridge_foreign_endpoint :=
              registerAccountsEx.token_bridge_foreign_endpoint_key })] :=
  register_foreign_contract_upsert pidEx 2 (List.replicate 32 3)
    (List.replicate 32 4) registerAccountsEx registerAccountsEx [] reg1Ex reg2Ex
    (by decide) (by rfl) (by rfl)

/-- C7: a register_foreign_contract call whose signer does not equal the
owner stored in SenderConfig fails with `OwnerOnly` and produces no
registry (the transaction is rolled back, so no ForeignContract record is
created or modified). -/
theorem register_foreign_contract_owner_only (pid : Pubkey) (chain : Nat)
    (addr : List Nat) (a : RegisterForeignContractAccounts) (reg : Registry)
    (h : a.config.owner ≠ a.owner_acct) :
    registerForeignContract pid chain addr a reg = .error (.hello .OwnerOnly)
    ∧ ∀ reg2 : Registry,
        registerForeignContract pid chain addr a reg ≠ .ok reg2 := by
  have hmain : registerForeignContract pid chain addr a reg
      = .error (.hello .OwnerOnly) := by
    simp [registerForeignContract, require_error_iff, h]
  refine ⟨hmain, ?_⟩
  intro reg2 hc
  rw [hmain] at hc
  exact absurd hc (by simp)

/-- C7 witness: a concrete call signed by a non-owner fails with
`OwnerOnly`. -/
theorem register_foreign_contract_owner_only_witness :
    registerForeignContract pidEx 2 (List.replicate 32 3) nonOwnerRegisterEx []
      = .error (.hello .OwnerOnly) :=
  (register_foreign_contract_owner_only pidEx 2 (List.replicate 32 3)
    nonOwnerRegisterEx [] (by decide)).1

/-- C8: a register_foreign_contract call whose context checks pass but
whose chain id equals the local chain identifier, or whose contract address
is the all-zero 32-byte value, fails with `InvalidForeignContract` and
produces no registry (no record is written). -/
theorem register_foreign_contract_invalid_inputs (pid : Pubkey) (chain : Nat)
    (addr : List Nat) (a : RegisterForeignContractAccounts) (reg : Registry)
    (hown : a.config.owner = a.owner_acct)
    (hck : a.config_key = senderConfigAddress pid)
    (hfk : a.foreign_contract_key = foreignContractAddress pid chain)
    (hek : a.token_bridge_foreign_endpoint_key =
      .pda [beBytes 2 chain, a.token_bridge_foreign_endpoint_emitter_address]
        a.token_bridge_program)
    (hprog : a.token_bridge_program = TOKEN_BRIDGE_PROGRAM_ID)
    (hbad : chain = CHAIN_ID_SOLANA ∨ addr = List.replicate 32 0) :
    registerForeignContract pid chain addr a reg
      = .error (.hello .InvalidForeignContract)
    ∧ ∀ reg2 : Registry,
        registerForeignContract pid chain addr a reg ≠ .ok reg2 := by
  have hmain : registerForeignContract pid chain addr a reg
      = .error (.hello .InvalidForeignContract) := by
    rcases hbad with hb | hb
    · simp [registerForeignContract, require_error_iff, hown, hck, hfk, hek,
        hprog, hb]
    · simp [registerForeignContract, require_error_iff, hown, hck, hfk, hek,
        hprog, hb]
      tauto
  refine ⟨hmain, ?_⟩
  intro reg2 hc
  rw [hmain] at hc
  exact absurd hc (by simp)

/-- C8 witness: a concrete owner-signed call targeting the local chain id
fails with `InvalidForeignContract`. -/
theorem register_foreign_contract_invalid_inputs_witness :
    registerForeignContract pidEx CHAIN_ID_SOLANA (List.replicate 32 3)
      localChainRegisterEx [] = .error (.hello .InvalidForeignContract) :=
  (register_foreign_contract_invalid_inputs pidEx CHAIN_ID_SOLANA
    (List.replicate 32 3) localChainRegisterEx [] (by decide) (by decide)
    (by decide) (by decide) (by decide) (Or.inl rfl)).1

end HelloToken
